import Mathlib

/-!
Shallow embedding of the two Ansible modules of the `incus-plugin`
repository (`plugins/modules/incus_profile.py` and
`plugins/modules/incus_storage_volume.py`).

Python dictionaries are modelled as association lists with unique keys;
YAML scalar values as the inductive `Value` with the Python `str`
conversion `pyStr`.  The external Gateway (`subprocess` running the
`incus` CLI) is modelled by a `World` record giving the responses to the
read commands and a success flag for each mutating command; every call
to `run_incus` is recorded in a trace of `Cmd`s.  `exit_json` /
`fail_json` terminate the module, which the embedding mirrors by
returning a `RunResult` ( `exited changed msg` for `exit_json`,
`failed msg` for `fail_json`, `crashed msg` for an uncaught Python
exception).  Stderr text appended to failure messages is not modelled
(messages keep their literal prefix).
-/

namespace Incus

/-- A YAML/JSON scalar value as it appears in a parsed document or in a
module parameter. -/
inductive Value where
  | vs (s : String)
  | vi (n : Int)
  | vb (b : Bool)
  | vnull
deriving DecidableEq, Repr

/-- Python `str()` on a scalar value. -/
def pyStr : Value → String
  | .vs s => s
  | .vi n => toString n
  | .vb true => "True"
  | .vb false => "False"
  | .vnull => "None"

/-- Python truthiness of an optional string parameter (`if self.x:`):
`None` and the empty string are falsy. -/
def truthy : Option String → Bool
  | none => false
  | some s => s != ""

/-- A device specification: a mapping of attribute name to value. -/
abbrev DeviceSpec := List (String × Value)

/-- Python `d[k] = v` on a dict modelled as an association list:
replace the first binding of `k`, else append. -/
def pySet {α : Type} : List (String × α) → String → α → List (String × α)
  | [], k, v => [(k, v)]
  | p :: rest, k, v =>
    if p.1 = k then (p.1, v) :: rest else p :: pySet rest k v

/-- Python `del d[k]` (callers guard with `if k in d`; deleting an
absent key leaves the list unchanged, matching the guarded call). -/
def pyDel {α : Type} (m : List (String × α)) (k : String) : List (String × α) :=
  m.filter (fun p => p.1 != k)

/-- A parsed profile document.  Each field is `Option (Option _)`:
`none` = key absent from the YAML mapping, `some none` = key present
with a null value, `some (some x)` = key present with value `x`.
Python `d.get(k)` is `Option.join`. -/
structure ProfileDoc where
  description : Option (Option String)
  config : Option (Option (List (String × Value)))
  devices : Option (Option (List (String × DeviceSpec)))
deriving DecidableEq, Repr

/-- The `config` mapping of a document after the normalisation
`if 'config' not in desired or desired['config'] is None: ... = {}`. -/
def cfgOf (d : ProfileDoc) : List (String × Value) :=
  match d.config with
  | some (some m) => m
  | _ => []

/-- The `devices` mapping after the analogous normalisation. -/
def devOf (d : ProfileDoc) : List (String × DeviceSpec) :=
  match d.devices with
  | some (some m) => m
  | _ => []

/-- The `for k, v in self.config.items()` loop of
`IncusProfile.get_desired_state`: a null value deletes the key when
present, a non-null value is stringified and assigned. -/
def applyCfg : List (String × Option Value) → List (String × Value) → List (String × Value)
  | [], m => m
  | (k, none) :: rest, m =>
    applyCfg rest (if (m.lookup k).isSome then pyDel m k else m)
  | (k, some v) :: rest, m => applyCfg rest (pySet m k (.vs (pyStr v)))

/-- The `for k, v in self.devices.items()` loop: wholesale assignment
`desired['devices'][k] = v`. -/
def applyDevs : List (String × DeviceSpec) → List (String × DeviceSpec) → List (String × DeviceSpec)
  | [], m => m
  | (k, v) :: rest, m => applyDevs rest (pySet m k v)

/-- One Gateway invocation as recorded in the trace: `run` is
`run_incus(args)`, `runInput` is `run_incus_input(args, yaml)` with the
document passed on stdin (serialisation is the excluded structured-text
collaborator, so the document itself is recorded). -/
inductive Cmd where
  | run (args : List String)
  | runInput (args : List String) (doc : ProfileDoc)
deriving DecidableEq, Repr

/-- Module termination: `exit_json(changed=..., msg=...)`,
`fail_json(msg=...)`, or an uncaught Python exception. -/
inductive RunResult where
  | exited (changed : Bool) (msg : String)
  | failed (msg : String)
  | crashed (msg : String)
deriving DecidableEq, Repr

/-- Commands that only read external state (`show` and the attachment
probes); every other Gateway command mutates external state. -/
def cmdIsRead : Cmd → Bool
  | .run ("profile" :: "show" :: _) => true
  | .run ("storage" :: "volume" :: "show" :: _) => true
  | .run ("config" :: "show" :: _) => true
  | .run ("config" :: "device" :: "list" :: _) => true
  | _ => false

inductive PState where
  | present | absent
deriving DecidableEq, Repr

/-- Validated parameters of the profile module (`IncusProfile.__init__`). -/
structure PParams where
  name : String
  source : Option String
  description : Option String
  config : Option (List (String × Option Value))
  devices : Option (List (String × DeviceSpec))
  state : PState
  renameFrom : Option String
  remote : String
  project : String
  checkMode : Bool

/-- A `show`-style query response at the CLI boundary. -/
inductive ShowResp (α : Type) where
  | err
  | ok (d : α)
  | garbage
deriving DecidableEq, Repr

/-- Result of reading the optional source declaration file:
missing file, read/parse failure, or a parsed document. -/
inductive FileResult where
  | missing | readFail | ok (d : ProfileDoc)

/-- The external world seen by one profile reconciliation run. -/
structure PWorld where
  showProfile : ShowResp ProfileDoc
  readFile : FileResult
  mutOk : Cmd → Bool

/-- Remote qualification: `"{}:{}".format(remote, s)` when the remote
is truthy and not `local`. -/
def rqual (remote : String) (s : String) : String :=
  if remote != "" && remote != "local" then remote ++ ":" ++ s else s

namespace IncusProfile

def ptarget (p : PParams) : String := rqual p.remote p.name

/-- `IncusProfile.get_profile`: `profile show`; a non-zero exit or a
decode failure (bare `except:`) yields `None`. -/
def get_profile (p : PParams) (w : PWorld) : List Cmd × Option ProfileDoc :=
  ([Cmd.run ["profile", "show", ptarget p]],
   match w.showProfile with
   | .err => none
   | .ok d => some d
   | .garbage => none)

/-- `IncusProfile.load_source`: no source parameter yields `{}` (here
`none`); a missing or unreadable file is a `fail_json`. -/
def load_source (p : PParams) (w : PWorld) : Except String (Option ProfileDoc) :=
  if truthy p.source then
    match w.readFile with
    | .missing => .error ("Source file \x27" ++ p.source.getD "" ++ "\x27 not found")
    | .readFail => .error ("Failed to read source file \x27" ++ p.source.getD "" ++ "\x27")
    | .ok d => .ok (some d)
  else .ok none

/-- The default empty base `{'config': {}, 'devices': {}, 'description': ''}`. -/
def emptyBase : ProfileDoc := ⟨some (some ""), some (some []), some (some [])⟩

/-- Base selection of `get_desired_state`: source document if the
source parameter was given, else a copy of the current profile, else
the empty skeleton. -/
def baseDoc (srcDoc : Option ProfileDoc) (current : Option ProfileDoc) : ProfileDoc :=
  match srcDoc, current with
  | some d, _ => d
  | none, some c => c
  | none, none => emptyBase

/-- `IncusProfile.get_desired_state` (after `load_source` succeeded;
`srcDoc` is `some` exactly when the source parameter is truthy). -/
def get_desired_state (p : PParams) (srcDoc current : Option ProfileDoc) : ProfileDoc :=
  let base := baseDoc srcDoc current
  let d1 :=
    if p.description.isSome then
      { base with description := some (some (p.description.getD "")) }
    else base
  let d2 :=
    match p.config with
    | none => d1
    | some ps => { d1 with config := some (some (applyCfg ps (cfgOf d1))) }
  match p.devices with
  | none => d2
  | some ds => { d2 with devices := some (some (applyDevs ds (devOf d2))) }

/-- Python dict equality (order-insensitive) on association lists with
unique keys, with a custom value comparison. -/
def pyDictEqBy {α : Type} (veq : α → α → Bool) (a b : List (String × α)) : Bool :=
  (a.all fun p => match b.lookup p.1 with | some v => veq p.2 v | none => false) &&
  (b.all fun p => (a.lookup p.1).isSome)

/-- Python `!=` between two optional config dicts. -/
def cfgNe (a b : Option (List (String × Value))) : Bool :=
  match a, b with
  | none, none => false
  | some x, some y => !(pyDictEqBy (fun u v => u == v) x y)
  | _, _ => true

/-- Python `!=` between two optional device dicts. -/
def devNe (a b : Option (List (String × DeviceSpec))) : Bool :=
  match a, b with
  | none, none => false
  | some x, some y => !(pyDictEqBy (fun u v => pyDictEqBy (fun s t => s == t) u v) x y)
  | _, _ => true

/-- `IncusProfile.update`. -/
def update (p : PParams) (w : PWorld) (newCreate : Bool) : List Cmd × RunResult :=
  let t1 := (get_profile p w).1
  match (get_profile p w).2 with
  | none => (t1, .failed "Profile not found for update")
  | some current =>
    match load_source p w with
    | .error msg => (t1, .failed msg)
    | .ok srcDoc =>
      let desired := get_desired_state p srcDoc (some current)
      let updated :=
        (current.description.join != desired.description.join) ||
        cfgNe current.config.join desired.config.join ||
        devNe current.devices.join desired.devices.join
      if !updated && !newCreate then (t1, .exited false "Profile matches configuration")
      else if p.checkMode then (t1, .exited true "Profile would be updated")
      else
        let c := Cmd.runInput ["profile", "edit", ptarget p] desired
        if w.mutOk c then (t1 ++ [c], .exited true "Profile updated")
        else (t1 ++ [c], .failed "Failed to update profile: ")

/-- `IncusProfile.create`: create empty, then configure via `update`. -/
def create (p : PParams) (w : PWorld) : List Cmd × RunResult :=
  let c := Cmd.run ["profile", "create", ptarget p]
  if w.mutOk c then
    let r := update p w true
    (c :: r.1, r.2)
  else ([c], .failed "Failed to create profile: ")

/-- `IncusProfile.delete`. -/
def delete (p : PParams) (w : PWorld) : List Cmd × RunResult :=
  if p.checkMode then ([], .exited true "Profile would be deleted")
  else
    let c := Cmd.run ["profile", "delete", ptarget p]
    if w.mutOk c then ([c], .exited true "Profile deleted")
    else ([c], .failed "Failed to delete profile: ")

/-- `IncusProfile.run`: the profile dispatcher. -/
def run (p : PParams) (w : PWorld) : List Cmd × RunResult :=
  let t0 := (get_profile p w).1
  match p.state with
  | .present =>
    match (get_profile p w).2 with
    | none =>
      if p.checkMode then (t0, .exited true "Profile would be created")
      else
        let r := create p w
        (t0 ++ r.1, r.2)
    | some _ =>
      let r := update p w false
      (t0 ++ r.1, r.2)
  | .absent =>
    match (get_profile p w).2 with
    | some _ =>
      let r := delete p w
      (t0 ++ r.1, r.2)
    | none => (t0, .exited false "Profile not found")

end IncusProfile

inductive VState where
  | present | absent | restored | exported | imported | copied
deriving DecidableEq, Repr

inductive VolType where
  | filesystem | block
deriving DecidableEq, Repr

/-- A parsed volume document as used by `IncusStorageVolume.update`:
only the `config` mapping is read (`current_info.get('config', {})`);
the description is carried but never consulted. -/
structure VolumeDoc where
  description : Option String
  config : Option (List (String × Value))
deriving DecidableEq, Repr

/-- Validated parameters of the volume module
(`IncusStorageVolume.__init__`). -/
structure VParams where
  pool : String
  name : String
  type : VolType
  config : Option (List (String × Value))
  description : Option String
  state : VState
  contentType : Option String
  remote : String
  project : String
  snapshot : Option String
  exportTo : Option String
  importFrom : Option String
  targetPool : Option String
  targetVolume : Option String
  move : Bool
  target : Option String
  attachTo : Option String
  attachPath : Option String
  attachDevice : Option String
  checkMode : Bool

/-- Response to `config show <instance>` as consumed by
`check_if_attached`: failure (→ not attached), a document whose
`devices` keys are listed, or undecodable output (→ uncaught
exception, since only `ImportError` is caught). -/
inductive CfgShow where
  | err
  | okDoc (deviceKeys : List String)
  | garbage
deriving DecidableEq, Repr

/-- The external world seen by one volume reconciliation run. -/
structure VWorld where
  showVol : ShowResp VolumeDoc
  showSnap : Bool
  cfgShow : CfgShow
  mutOk : Cmd → Bool

namespace IncusStorageVolume

/-- The remote-qualified pool (`target_pool` in the Python source). -/
def vpool (p : VParams) : String := rqual p.remote p.pool

/-- `self.attach_device = module.params['attach_device'] or self.name`. -/
def attachDev (p : VParams) : String :=
  if truthy p.attachDevice then p.attachDevice.getD "" else p.name

/-- `IncusStorageVolume.get_volume_info`: `storage volume show`; a
non-zero exit yields `None`, but a decode failure raises (the `except`
clause only catches `ImportError`, which `yaml.safe_load` never
raises). -/
def get_volume_info (p : VParams) (w : VWorld) :
    List Cmd × Except String (Option VolumeDoc) :=
  ([Cmd.run ["storage", "volume", "show", vpool p, p.name]],
   match w.showVol with
   | .err => .ok none
   | .ok d => .ok (some d)
   | .garbage => .error "uncaught yaml.YAMLError in get_volume_info")

/-- `IncusStorageVolume.snapshot_exists`: show `<volume>/<snapshot>`
and test the exit status. -/
def snapshot_exists (p : VParams) (w : VWorld) : List Cmd × Bool :=
  ([Cmd.run ["storage", "volume", "show", vpool p,
             p.name ++ "/" ++ p.snapshot.getD ""]],
   w.showSnap)

/-- `has_path` in `attach_volume`: a mount path is appended only for
truthy `attach_path`, filesystem type, non-ISO content. -/
def hasPath (p : VParams) : Bool :=
  truthy p.attachPath && p.type == .filesystem && !(p.contentType == some "iso")

/-- The argument list built by `IncusStorageVolume.attach_volume`. -/
def attachCmdArgs (p : VParams) : List String :=
  let useDefault := attachDev p == p.name
  ["storage", "volume", "attach", vpool p, p.name, p.attachTo.getD ""]
  ++ (if !useDefault || hasPath p then [attachDev p] else [])
  ++ (if hasPath p then [p.attachPath.getD ""] else [])

/-- `IncusStorageVolume.attach_volume`: under check mode it returns
before calling the Gateway; a failure is a `fail_json` (`some r`). -/
def attach_volume (p : VParams) (w : VWorld) : List Cmd × Option RunResult :=
  if p.checkMode then ([], none)
  else
    let c := Cmd.run (attachCmdArgs p)
    if w.mutOk c then ([c], none)
    else ([c], some (.failed "Failed to attach volume: "))

/-- `IncusStorageVolume.check_if_attached`: a `config device list`
probe whose result is discarded, then `config show`; a same-named
device key means "attached"; an undecodable `config show` document
raises (only `ImportError` is caught). -/
def check_if_attached (p : VParams) (w : VWorld) : List Cmd × Except String Bool :=
  let inst := rqual p.remote (p.attachTo.getD "")
  ([Cmd.run ["config", "device", "list", inst, "--format=json"],
    Cmd.run ["config", "show", inst]],
   match w.cfgShow with
   | .err => .ok false
   | .okDoc devs => .ok (devs.contains (attachDev p))
   | .garbage => .error "uncaught exception in check_if_attached")

/-- The argument list built by the volume-creation branch of
`IncusStorageVolume.create`. -/
def createCmdArgs (p : VParams) : List String :=
  ["storage", "volume", "create", vpool p, p.name]
  ++ (if truthy p.description then ["--description", p.description.getD ""] else [])
  ++ (if truthy p.contentType then ["--type=" ++ p.contentType.getD ""]
      else if p.type == .block then ["--type=block"] else [])
  ++ (if truthy p.target then ["--target=" ++ p.target.getD ""] else [])
  ++ (match p.config with
      | some l => l.map (fun kv => kv.1 ++ "=" ++ pyStr kv.2)
      | none => [])

/-- The snapshot-creation command of `IncusStorageVolume.create`. -/
def snapCreateCmd (p : VParams) : Cmd :=
  Cmd.run ["storage", "volume", "snapshot", "create", vpool p, p.name,
           p.snapshot.getD ""]

/-- `IncusStorageVolume.create`: snapshot creation when a snapshot
name is given (idempotent via `snapshot_exists`), else volume creation
followed by an optional attach. -/
def create (p : VParams) (w : VWorld) : List Cmd × RunResult :=
  if truthy p.snapshot then
    let t1 := (snapshot_exists p w).1
    if (snapshot_exists p w).2 then (t1, .exited false "Snapshot already exists")
    else if p.checkMode then (t1, .exited true "Snapshot would be created")
    else if w.mutOk (snapCreateCmd p) then
      (t1 ++ [snapCreateCmd p], .exited true "Snapshot created")
    else (t1 ++ [snapCreateCmd p], .failed "Failed to create snapshot: ")
  else
    let c := Cmd.run (createCmdArgs p)
    if p.checkMode then ([], .exited true "Storage volume would be created")
    else if !(w.mutOk c) then ([c], .failed "Failed to create storage volume: ")
    else if truthy p.attachTo then
      let a := attach_volume p w
      match a.2 with
      | some f => (c :: a.1, f)
      | none => (c :: a.1, .exited true "Storage volume created")
    else ([c], .exited true "Storage volume created")

/-- The `for k, v in self.config.items()` loop of
`IncusStorageVolume.update`: per-key stringified comparison against
the current config (`current_config.get(k, '')`), with a `set`
command per differing key outside check mode; a failing `set` is an
immediate `fail_json`. -/
def updCfg (p : VParams) (w : VWorld) (cc : List (String × Value)) :
    List (String × Value) → List Cmd → Bool → List String →
    List Cmd × Bool × List String × Option RunResult
  | [], t, ch, ms => (t, ch, ms, none)
  | (k, v) :: rest, t, ch, ms =>
    let curr := pyStr ((cc.lookup k).getD (.vs ""))
    if curr != pyStr v then
      if !p.checkMode then
        let c := Cmd.run ["storage", "volume", "set", vpool p, p.name,
                          k ++ "=" ++ pyStr v]
        if w.mutOk c then
          updCfg p w cc rest (t ++ [c]) true
            (ms ++ ["Updated config \x27" ++ k ++ "\x27"])
        else (t ++ [c], true, ms,
              some (.failed ("Failed to set volume config \x27" ++ k ++ "\x27: ")))
      else updCfg p w cc rest t true (ms ++ ["Updated config \x27" ++ k ++ "\x27"])
    else updCfg p w cc rest t ch ms

/-- Final `exit_json` of `IncusStorageVolume.update`. -/
def updFinish (t : List Cmd) (ch : Bool) (ms : List String) : List Cmd × RunResult :=
  if ch then (t, .exited true (String.intercalate ", " ms))
  else (t, .exited false "Storage volume matches configuration")

/-- `IncusStorageVolume.update`. -/
def update (p : VParams) (w : VWorld) (ci : VolumeDoc) : List Cmd × RunResult :=
  let cc := ci.config.getD []
  let items := match p.config with | some l => l | none => []
  let r := updCfg p w cc items [] false []
  match r.2.2.2 with
  | some f => (r.1, f)
  | none =>
    if truthy p.attachTo then
      let a := check_if_attached p w
      match a.2 with
      | .error e => (r.1 ++ a.1, .crashed e)
      | .ok true => updFinish (r.1 ++ a.1) r.2.1 r.2.2.1
      | .ok false =>
        let av := attach_volume p w
        match av.2 with
        | some f => (r.1 ++ a.1 ++ av.1, f)
        | none =>
          updFinish (r.1 ++ a.1 ++ av.1) true
            (r.2.2.1 ++ ["Attached to instance \x27" ++ p.attachTo.getD "" ++ "\x27"])
    else updFinish r.1 r.2.1 r.2.2.1

/-- `IncusStorageVolume.delete`: snapshot deletion when a snapshot
name is given, else volume deletion. -/
def delete (p : VParams) (w : VWorld) : List Cmd × RunResult :=
  if truthy p.snapshot then
    let t1 := (snapshot_exists p w).1
    if !(snapshot_exists p w).2 then (t1, .exited false "Snapshot not found")
    else if p.checkMode then (t1, .exited true "Snapshot would be deleted")
    else
      let c := Cmd.run ["storage", "volume", "snapshot", "delete", vpool p,
                        p.name, p.snapshot.getD ""]
      if w.mutOk c then (t1 ++ [c], .exited true "Snapshot deleted")
      else (t1 ++ [c], .failed "Failed to delete snapshot: ")
  else if p.checkMode then ([], .exited true "Storage volume would be deleted")
  else
    let c := Cmd.run ["storage", "volume", "delete", vpool p, p.name]
    if w.mutOk c then ([c], .exited true "Storage volume deleted")
    else ([c], .failed "Failed to delete storage volume: ")

/-- `IncusStorageVolume.restore`: validates the snapshot parameter,
probes existence, then restores. -/
def restore (p : VParams) (w : VWorld) : List Cmd × RunResult :=
  if !truthy p.snapshot then
    ([], .failed "\x27snapshot\x27 is required for state=restored")
  else
    let t1 := (snapshot_exists p w).1
    if !(snapshot_exists p w).2 then (t1, .failed "Snapshot not found")
    else if p.checkMode then (t1, .exited true "Snapshot would be restored")
    else
      let c := Cmd.run ["storage", "volume", "snapshot", "restore", vpool p,
                        p.name, p.snapshot.getD ""]
      if w.mutOk c then (t1 ++ [c], .exited true "Snapshot restored")
      else (t1 ++ [c], .failed "Failed to restore snapshot: ")

/-- `IncusStorageVolume.export_volume`. -/
def export_volume (p : VParams) (w : VWorld) : List Cmd × RunResult :=
  if !truthy p.exportTo then
    ([], .failed "\x27export_to\x27 is required for state=exported")
  else
    let c := Cmd.run ["storage", "volume", "export", vpool p, p.name,
                      p.exportTo.getD ""]
    if p.checkMode then ([], .exited true "Volume would be exported")
    else if w.mutOk c then ([c], .exited true "Volume exported")
    else ([c], .failed "Failed to export volume: ")

/-- `IncusStorageVolume.import_volume`: runs before any current-state
lookup; an optional attach follows a successful import. -/
def import_volume (p : VParams) (w : VWorld) : List Cmd × RunResult :=
  if !truthy p.importFrom then
    ([], .failed "\x27import_from\x27 is required for state=imported")
  else
    let c := Cmd.run (["storage", "volume", "import", vpool p,
                       p.importFrom.getD ""]
      ++ (if p.name != "" then [p.name] else [])
      ++ (if truthy p.contentType then ["--type=" ++ p.contentType.getD ""] else []))
    if p.checkMode then ([], .exited true "Volume would be imported")
    else if !(w.mutOk c) then ([c], .failed "Failed to import volume: ")
    else if truthy p.attachTo then
      let a := attach_volume p w
      match a.2 with
      | some f => (c :: a.1, f)
      | none => (c :: a.1, .exited true "Volume imported")
    else ([c], .exited true "Volume imported")

/-- `IncusStorageVolume.copy_move`. -/
def copy_move (p : VParams) (w : VWorld) : List Cmd × RunResult :=
  if !truthy p.targetPool then
    ([], .failed "\x27target_pool\x27 is required for state=copied (can be same as source)")
  else if !truthy p.targetVolume then
    ([], .failed "\x27target_volume\x27 is required for state=copied")
  else
    let op := if p.move then "move" else "copy"
    let src := rqual p.remote (p.pool ++ "/" ++ p.name)
    let tgt := rqual p.remote (p.targetPool.getD "" ++ "/" ++ p.targetVolume.getD "")
    if p.checkMode then ([], .exited true ("Volume would be " ++ op ++ "d"))
    else
      let c := Cmd.run (["storage", "volume", op, src, tgt]
        ++ (if truthy p.target then ["--target=" ++ p.target.getD ""] else []))
      if w.mutOk c then ([c], .exited true ("Volume " ++ op ++ "d"))
      else ([c], .failed ("Failed to " ++ op ++ " volume: "))

/-- `IncusStorageVolume.run`: the volume dispatcher.  `imported`
short-circuits before the current-state lookup; all remaining modes
fetch the current state first (a crash there aborts the run). -/
def run (p : VParams) (w : VWorld) : List Cmd × RunResult :=
  if p.state == .imported then import_volume p w
  else
    let t0 := (get_volume_info p w).1
    match (get_volume_info p w).2 with
    | .error e => (t0, .crashed e)
    | .ok current =>
      match p.state with
      | .imported => import_volume p w
      | .present =>
        match current, truthy p.snapshot with
        | none, false =>
          let r := create p w
          (t0 ++ r.1, r.2)
        | some _, true =>
          let r := create p w
          (t0 ++ r.1, r.2)
        | some ci, false =>
          let r := update p w ci
          (t0 ++ r.1, r.2)
        | none, true =>
          (t0, .failed ("Volume \x27" ++ p.name ++ "\x27 does not exist"))
      | .absent =>
        match current with
        | some _ =>
          let r := delete p w
          (t0 ++ r.1, r.2)
        | none => (t0, .exited false "Volume/Snapshot not found")
      | .restored =>
        let r := restore p w
        (t0 ++ r.1, r.2)
      | .exported =>
        let r := export_volume p w
        (t0 ++ r.1, r.2)
      | .copied =>
        match current with
        | none => (t0, .failed ("Source volume \x27" ++ p.name ++ "\x27 not found"))
        | some _ =>
          let r := copy_move p w
          (t0 ++ r.1, r.2)

/-- The per-key `storage volume set` command issued by the update loop
for a differing config key. -/
def setCmd (p : VParams) (kv : String × Value) : Cmd :=
  Cmd.run ["storage", "volume", "set", vpool p, p.name, kv.1 ++ "=" ++ pyStr kv.2]

/-- The supplied config items whose stringified value differs from the
current config (`current_config.get(k, '')`): exactly the keys the
update loop mutates. -/
def diffKeys (cc : List (String × Value)) (items : List (String × Value)) :
    List (String × Value) :=
  items.filter (fun kv => pyStr ((cc.lookup kv.1).getD (.vs "")) != pyStr kv.2)

end IncusStorageVolume

/-- The profile module only ever issues `profile show|create|edit|delete`;
in particular no rename command exists in its repertoire. -/
def profileVerbOk : Cmd → Bool
  | .run ("profile" :: v :: _) => v == "show" || v == "create" || v == "delete"
  | .runInput ("profile" :: v :: _) _ => v == "edit"
  | _ => false

/-! ### Example inputs used by witnesses and counterexamples -/

/-- Baseline profile parameters (no optional parameter supplied). -/
def pBase : PParams :=
  { name := "web-profile", source := none, description := none, config := none,
    devices := none, state := .present, renameFrom := none, remote := "local",
    project := "default", checkMode := false }

/-- Baseline profile world. -/
def pwBase : PWorld :=
  { showProfile := .err, readFile := .missing, mutOk := fun _ => true }

/-- Baseline volume parameters (no optional parameter supplied). -/
def vBase : VParams :=
  { pool := "pool1", name := "vol1", type := .filesystem, config := none,
    description := none, state := .present, contentType := none,
    remote := "local", project := "default", snapshot := none,
    exportTo := none, importFrom := none, targetPool := none,
    targetVolume := none, move := false, target := none, attachTo := none,
    attachPath := none, attachDevice := none, checkMode := false }

/-- Baseline volume world: the volume is absent, no snapshot, every
mutating command succeeds. -/
def vwBase : VWorld :=
  { showVol := .err, showSnap := false, cfgShow := .err, mutOk := fun _ => true }

def c1params : PParams :=
  { pBase with config := some [("b", none), ("c", some (.vs "3"))] }

def c1current : ProfileDoc :=
  ⟨some (some ""), some (some [("a", .vs "1"), ("b", .vs "2")]), some (some [])⟩

def c7dev : DeviceSpec := [("type", Value.vs "nic"), ("network", Value.vs "y")]

def c7params : PParams := { pBase with devices := some [("eth0", c7dev)] }

def c7current : ProfileDoc :=
  ⟨some (some ""), some (some []),
   some (some [("eth0", [("type", Value.vs "nic"), ("network", Value.vs "x")])])⟩

def c2params : VParams := { vBase with state := .restored, checkMode := true }

def c3params : VParams := { vBase with snapshot := some "s1" }

def c3cxparams : VParams :=
  { vBase with name := "data-vol", snapshot := some "snap1" }

def c5params : VParams := { vBase with state := .restored }

def c5cxparams : VParams :=
  { vBase with pool := "tank", name := "data", state := .restored }

def c6vworld : VWorld := { vwBase with showVol := .garbage }

def c6pworld : PWorld := { pwBase with showProfile := .garbage }

def c4items : List (String × Value) :=
  [("size", Value.vs "10GiB"), ("snapshots.schedule", Value.vs "@daily")]

def c4params : VParams := { vBase with config := some c4items }

def c4current : VolumeDoc :=
  ⟨some "old words", some [("size", Value.vs "10GiB")]⟩

def c4world : VWorld := { vwBase with showVol := .ok c4current }

def c4cxparams : VParams := { vBase with description := some "new words" }

def c8params : VParams := { vBase with snapshot := some "s1" }

def c8current : VolumeDoc := ⟨none, none⟩

def c8worldA : VWorld :=
  { vwBase with showVol := .ok c8current, showSnap := true }

def c8worldB : VWorld :=
  { vwBase with showVol := .ok c8current, showSnap := false }

/-! ### Association-list lemmas -/

theorem lookup_pySet {α : Type} (m : List (String × α)) (k j : String) (v : α) :
    (pySet m k v).lookup j = if j = k then some v else m.lookup j := by
  induction m with
  | nil =>
    by_cases h : j = k
    · simp [pySet, List.lookup, h]
    · simp [pySet, List.lookup, h, beq_false_of_ne h]
  | cons p rest ih =>
    by_cases hpk : p.1 = k
    · subst hpk
      simp only [pySet, if_pos rfl, List.lookup]
      by_cases hj : j = p.1
      · simp [hj]
      · simp [beq_false_of_ne hj, hj]
    · simp only [pySet, if_neg hpk, List.lookup]
      by_cases hj : j = p.1
      · subst hj
        simp [if_neg hpk]
      · simp [beq_false_of_ne hj, ih]

theorem lookup_pyDel {α : Type} (m : List (String × α)) (k j : String) :
    (pyDel m k).lookup j = if j = k then none else m.lookup j := by
  induction m with
  | nil => by_cases h : j = k <;> simp [pyDel, List.lookup, h]
  | cons p rest ih =>
    by_cases hpk : p.1 = k
    · subst hpk
      have hf : (p.1 != p.1) = false := by simp
      simp only [pyDel, List.filter, hf]
      by_cases hj : j = p.1
      · simpa [pyDel, hj] using ih
      · simpa [pyDel, List.lookup, beq_false_of_ne hj] using ih
    · have ht : (p.1 != k) = true := bne_iff_ne.mpr hpk
      simp only [pyDel, List.filter, ht]
      by_cases hj : j = p.1
      · subst hj
        simp [List.lookup, if_neg hpk]
      · simpa [pyDel, List.lookup, beq_false_of_ne hj] using ih

theorem lookup_eq_none_of_not_mem {α : Type} (m : List (String × α)) (k : String)
    (h : k ∉ m.map Prod.fst) : m.lookup k = none := by
  induction m with
  | nil => rfl
  | cons p rest ih =>
    simp only [List.map, List.mem_cons] at h
    push_neg at h
    simp [List.lookup, beq_false_of_ne h.1, ih h.2]

theorem applyCfg_lookup (ps : List (String × Option Value)) (m : List (String × Value))
    (j : String) (hnd : (ps.map Prod.fst).Nodup) :
    (applyCfg ps m).lookup j =
      match ps.lookup j with
      | some none => none
      | some (some v) => some (Value.vs (pyStr v))
      | none => m.lookup j := by
  induction ps generalizing m with
  | nil => rfl
  | cons kv rest ih =>
    obtain ⟨k, ov⟩ := kv
    simp only [List.map_cons, List.nodup_cons] at hnd
    obtain ⟨hk, hrest⟩ := hnd
    have hstep1 : ∀ m', applyCfg ((k, none) :: rest) m' =
        applyCfg rest (if (m'.lookup k).isSome then pyDel m' k else m') := fun _ => rfl
    have hstep2 : ∀ (v : Value) m', applyCfg ((k, some v) :: rest) m' =
        applyCfg rest (pySet m' k (.vs (pyStr v))) := fun _ _ => rfl
    by_cases hj : j = k
    · subst hj
      have hrn : rest.lookup j = none := lookup_eq_none_of_not_mem rest j hk
      have hhead : (((j, ov)) :: rest).lookup j = some ov := by
        simp [List.lookup]
      cases ov with
      | none =>
        rw [hstep1, ih _ hrest, hrn, hhead]
        by_cases hms : (m.lookup j).isSome
        · rw [if_pos hms, lookup_pyDel]
          simp
        · rw [if_neg hms]
          exact Option.not_isSome_iff_eq_none.mp hms
      | some v =>
        rw [hstep2, ih _ hrest, hrn, hhead, lookup_pySet]
        simp
    · have hlk : ((k, ov) :: rest).lookup j = rest.lookup j := by
        simp [List.lookup, beq_false_of_ne hj]
      rw [hlk]
      cases ov with
      | none =>
        rw [hstep1, ih _ hrest]
        cases hr : rest.lookup j with
        | some w => cases w <;> rfl
        | none =>
          by_cases hms : (m.lookup k).isSome
          · rw [if_pos hms, lookup_pyDel, if_neg hj]
          · rw [if_neg hms]
      | some v =>
        rw [hstep2, ih _ hrest]
        cases hr : rest.lookup j with
        | some w => cases w <;> rfl
        | none => rw [lookup_pySet, if_neg hj]

theorem applyDevs_lookup (ds : List (String × DeviceSpec))
    (m : List (String × DeviceSpec)) (j : String)
    (hnd : (ds.map Prod.fst).Nodup) :
    (applyDevs ds m).lookup j =
      match ds.lookup j with
      | some v => some v
      | none => m.lookup j := by
  induction ds generalizing m with
  | nil => rfl
  | cons kv rest ih =>
    obtain ⟨k, v⟩ := kv
    simp only [List.map_cons, List.nodup_cons] at hnd
    obtain ⟨hk, hrest⟩ := hnd
    have hstep : ∀ m', applyDevs ((k, v) :: rest) m' =
        applyDevs rest (pySet m' k v) := fun _ => rfl
    by_cases hj : j = k
    · subst hj
      have hrn : rest.lookup j = none := lookup_eq_none_of_not_mem rest j hk
      have hhead : (((j, v)) :: rest).lookup j = some v := by
        simp [List.lookup]
      rw [hstep, ih _ hrest, hrn, hhead, lookup_pySet]
      simp
    · have hlk : ((k, v) :: rest).lookup j = rest.lookup j := by
        simp [List.lookup, beq_false_of_ne hj]
      rw [hlk, hstep, ih _ hrest]
      cases hr : rest.lookup j with
      | some u => rfl
      | none => rw [lookup_pySet, if_neg hj]

/-! ### Helper lemmas: check-mode traces contain only read commands -/

theorem all_read_append (a b : List Cmd) :
    ((a ++ b).all cmdIsRead) = (a.all cmdIsRead && b.all cmdIsRead) :=
  List.all_append

theorem profile_show_read (s t : List String) :
    cmdIsRead (Cmd.run ("profile" :: "show" :: s ++ t)) = true := rfl

namespace IncusProfile

theorem get_profile_reads (p : PParams) (w : PWorld) :
    ((get_profile p w).1.all cmdIsRead) = true := rfl

theorem profile_update_check_reads (p : PParams) (w : PWorld) (nc : Bool)
    (h : p.checkMode = true) :
    ((update p w nc).1.all cmdIsRead) = true := by
  simp only [update, h]
  split
  · rfl
  · split
    · rfl
    · split
      · rfl
      · rfl

theorem profile_run_check_reads (p : PParams) (w : PWorld) (h : p.checkMode = true) :
    ((run p w).1.all cmdIsRead) = true := by
  simp only [run, h]
  split
  · split
    · rfl
    · rw [all_read_append, profile_update_check_reads p w false h]
      rfl
  · split
    · simp only [delete, h, List.append_nil]
      rfl
    · rfl

end IncusProfile

namespace IncusStorageVolume

theorem get_volume_info_reads (p : VParams) (w : VWorld) :
    ((get_volume_info p w).1.all cmdIsRead) = true := rfl

theorem snapshot_exists_reads (p : VParams) (w : VWorld) :
    ((snapshot_exists p w).1.all cmdIsRead) = true := rfl

theorem check_if_attached_reads (p : VParams) (w : VWorld) :
    ((check_if_attached p w).1.all cmdIsRead) = true := rfl

theorem attach_volume_check (p : VParams) (w : VWorld) (h : p.checkMode = true) :
    attach_volume p w = ([], none) := by
  simp [attach_volume, h]

theorem updCfg_check (p : VParams) (w : VWorld) (cc : List (String × Value))
    (items : List (String × Value)) (t : List Cmd) (ch : Bool) (ms : List String)
    (h : p.checkMode = true) :
    (updCfg p w cc items t ch ms).1 = t ∧
    (updCfg p w cc items t ch ms).2.2.2 = none := by
  induction items generalizing t ch ms with
  | nil => exact ⟨rfl, rfl⟩
  | cons kv rest ih =>
    obtain ⟨k, v⟩ := kv
    simp only [updCfg, h, Bool.not_true]
    split
    · exact ih _ _ _
    · exact ih _ _ _

theorem volume_update_check_reads (p : VParams) (w : VWorld) (ci : VolumeDoc)
    (h : p.checkMode = true) :
    ((update p w ci).1.all cmdIsRead) = true := by
  simp only [update]
  obtain ⟨h1, h2⟩ := updCfg_check p w (ci.config.getD [])
    (match p.config with | some l => l | none => []) [] false [] h
  rw [h2]
  simp only [h1]
  split
  · split
    · rfl
    · simp only [updFinish]
      split <;> rfl
    · rw [attach_volume_check p w h]
      simp only [updFinish]
      split <;> rfl
  · simp only [updFinish]
    split <;> rfl

theorem create_check_reads (p : VParams) (w : VWorld) (h : p.checkMode = true) :
    ((create p w).1.all cmdIsRead) = true := by
  simp only [create, h]
  split
  · split
    · rfl
    · rfl
  · rfl

theorem delete_check_reads (p : VParams) (w : VWorld) (h : p.checkMode = true) :
    ((delete p w).1.all cmdIsRead) = true := by
  simp only [delete, h]
  split
  · split
    · rfl
    · rfl
  · rfl

theorem restore_check_reads (p : VParams) (w : VWorld) (h : p.checkMode = true) :
    ((restore p w).1.all cmdIsRead) = true := by
  simp only [restore, h]
  split
  · rfl
  · split
    · rfl
    · rfl

theorem export_check_reads (p : VParams) (w : VWorld) (h : p.checkMode = true) :
    ((export_volume p w).1.all cmdIsRead) = true := by
  simp only [export_volume, h]
  split
  · rfl
  · rfl

theorem import_check_reads (p : VParams) (w : VWorld) (h : p.checkMode = true) :
    ((import_volume p w).1.all cmdIsRead) = true := by
  simp only [import_volume, h]
  split
  · rfl
  · rfl

theorem copy_move_check_reads (p : VParams) (w : VWorld) (h : p.checkMode = true) :
    ((copy_move p w).1.all cmdIsRead) = true := by
  simp only [copy_move, h]
  split
  · rfl
  · split
    · rfl
    · rfl

theorem volume_run_check_reads (p : VParams) (w : VWorld) (h : p.checkMode = true) :
    ((run p w).1.all cmdIsRead) = true := by
  unfold run
  split
  · exact import_check_reads p w h
  · split
    · rfl
    · split
      · exact import_check_reads p w h
      · split
        · rw [all_read_append, create_check_reads p w h]
          rfl
        · rw [all_read_append, create_check_reads p w h]
          rfl
        · rw [all_read_append, volume_update_check_reads p w _ h]
          rfl
        · rfl
      · split
        · rw [all_read_append, delete_check_reads p w h]
          rfl
        · rfl
      · rw [all_read_append, restore_check_reads p w h]
        rfl
      · rw [all_read_append, export_check_reads p w h]
        rfl
      · split
        · rfl
        · rw [all_read_append, copy_move_check_reads p w h]
          rfl

end IncusStorageVolume

/-! ### Helper lemmas: every profile command uses an allowed verb -/

namespace IncusProfile

theorem update_verbs (p : PParams) (w : PWorld) (nc : Bool) :
    ((update p w nc).1.all profileVerbOk) = true := by
  simp only [update]
  split
  · rfl
  · split
    · rfl
    · split
      · rfl
      · split
        · rfl
        · split
          · rfl
          · rfl

theorem create_verbs (p : PParams) (w : PWorld) :
    ((create p w).1.all profileVerbOk) = true := by
  simp only [create]
  split
  · simp only [List.all_cons, update_verbs p w true]
    rfl
  · rfl

theorem delete_verbs (p : PParams) (w : PWorld) :
    ((delete p w).1.all profileVerbOk) = true := by
  simp only [delete]
  split
  · rfl
  · split
    · rfl
    · rfl

theorem run_verbs (p : PParams) (w : PWorld) :
    ((run p w).1.all profileVerbOk) = true := by
  simp only [run]
  split
  · split
    · split
      · rfl
      · rw [List.all_append, create_verbs p w]
        rfl
    · rw [List.all_append, update_verbs p w false]
      rfl
  · split
    · rw [List.all_append, delete_verbs p w]
      rfl
    · rfl

end IncusProfile

/-! ### Lemmas connecting `get_desired_state` to the perfield loops -/

theorem gds_config (p : PParams) (src cur : Option ProfileDoc)
    (ps : List (String × Option Value)) (hcfg : p.config = some ps) :
    cfgOf (IncusProfile.get_desired_state p src cur) =
      applyCfg ps (cfgOf (IncusProfile.baseDoc src cur)) := by
  simp only [IncusProfile.get_desired_state, hcfg]
  cases hd : p.devices <;> cases hdesc : p.description.isSome <;>
    simp [cfgOf, hd, hdesc]

theorem gds_devices (p : PParams) (src cur : Option ProfileDoc)
    (ds : List (String × DeviceSpec)) (hdev : p.devices = some ds) :
    devOf (IncusProfile.get_desired_state p src cur) =
      applyDevs ds (devOf (IncusProfile.baseDoc src cur)) := by
  simp only [IncusProfile.get_desired_state, hdev]
  cases hc : p.config <;> cases hdesc : p.description.isSome <;>
    simp [devOf, hc, hdesc]

/-! ### Claim theorems -/

/-- Claim C1: in every profile desired-state computation with a config
parameter mapping `ps` (a Python dict, hence unique keys), a key mapped
to null is removed from the base config, a key mapped to a non-null
value is stringified and written over any existing value, and every
base-config key not mentioned in `ps` is left unchanged. -/
theorem desired_config_merge (p : PParams) (src cur : Option ProfileDoc)
    (ps : List (String × Option Value)) (k : String)
    (hcfg : p.config = some ps) (hnd : (ps.map Prod.fst).Nodup) :
    (cfgOf (IncusProfile.get_desired_state p src cur)).lookup k =
      match ps.lookup k with
      | some none => none
      | some (some v) => some (Value.vs (pyStr v))
      | none => (cfgOf (IncusProfile.baseDoc src cur)).lookup k := by
  rw [gds_config p src cur ps hcfg, applyCfg_lookup _ _ _ hnd]

/-- Witness for C1: current config `{a:1, b:2}` with params
`{b: null, c: "3"}` yields desired config `{a:1, c:3}`. -/
theorem desired_config_merge_witness :
    (cfgOf (IncusProfile.get_desired_state c1params none (some c1current))).lookup "a"
        = some (.vs "1") ∧
    (cfgOf (IncusProfile.get_desired_state c1params none (some c1current))).lookup "b"
        = none ∧
    (cfgOf (IncusProfile.get_desired_state c1params none (some c1current))).lookup "c"
        = some (.vs "3") ∧
    cfgOf (IncusProfile.get_desired_state c1params none (some c1current))
        = [("a", .vs "1"), ("c", .vs "3")] :=
  ⟨(desired_config_merge c1params none (some c1current) _ "a" rfl (by decide)).trans
      (by decide),
   (desired_config_merge c1params none (some c1current) _ "b" rfl (by decide)).trans
      (by decide),
   (desired_config_merge c1params none (some c1current) _ "c" rfl (by decide)).trans
      (by decide),
   by decide⟩

/-- Claim C7: every supplied device entry replaces the base entry for
that key wholesale: the resulting device is exactly the supplied
device object. -/
theorem desired_devices_replace (p : PParams) (src cur : Option ProfileDoc)
    (ds : List (String × DeviceSpec)) (k : String) (spec : DeviceSpec)
    (hdev : p.devices = some ds) (hnd : (ds.map Prod.fst).Nodup)
    (hk : ds.lookup k = some spec) :
    (devOf (IncusProfile.get_desired_state p src cur)).lookup k = some spec := by
  rw [gds_devices p src cur ds hdev, applyDevs_lookup _ _ _ hnd, hk]

/-- Witness for C7: current device `eth0={type:nic,network:x}`, params
device `eth0={type:nic,network:y}` gives exactly the params object —
no field union (no `network:x` survives). -/
theorem desired_devices_replace_witness :
    (devOf (IncusProfile.get_desired_state c7params none (some c7current))).lookup "eth0"
        = some [("type", Value.vs "nic"), ("network", Value.vs "y")] ∧
    devOf (IncusProfile.get_desired_state c7params none (some c7current))
        = [("eth0", [("type", Value.vs "nic"), ("network", Value.vs "y")])] :=
  ⟨desired_devices_replace c7params none (some c7current) [("eth0", c7dev)] "eth0"
      c7dev rfl (by decide) (by decide),
   by decide⟩

/-- Claim C2 (amended): for every operation mode of both modules, check
mode executes no mutating Gateway command — every traced command is a
read (`show` / attachment probe).  The original claim's further
assertion that the outcome is always would-change/no-change is refuted
by `dry_run_outcome_counterexample`: validation failures (and crashes
on undecodable show output) still occur under check mode, though still
without any mutating call. -/
theorem dry_run_no_mutation (pp : PParams) (wp : PWorld) (pv : VParams) (wv : VWorld) :
    ((IncusProfile.run { pp with checkMode := true } wp).1.all cmdIsRead) = true ∧
    ((IncusStorageVolume.run { pv with checkMode := true } wv).1.all cmdIsRead) = true :=
  ⟨IncusProfile.profile_run_check_reads _ wp rfl, IncusStorageVolume.volume_run_check_reads _ wv rfl⟩

/-- Counterexample to C2 as stated: in check mode, `state=restored`
with no snapshot name terminates with a `fail_json` (validation
failure), not a would-change/no-change outcome.  (No mutating command
is issued, as the amended claim states.) -/
theorem dry_run_outcome_counterexample :
    IncusStorageVolume.run c2params vwBase =
      ([Cmd.run ["storage", "volume", "show", "pool1", "vol1"]],
       .failed "\x27snapshot\x27 is required for state=restored") := by
  decide

/-- Claim C10: the profile module's `rename_from` parameter has no
effect — runs differing only in `rename_from` issue identical command
sequences with identical outcomes, and every command the module can
issue is a `profile show|create|edit|delete` (never a rename). -/
theorem rename_from_inert (p : PParams) (w : PWorld) (r : Option String) :
    IncusProfile.run { p with renameFrom := r } w = IncusProfile.run p w ∧
    ((IncusProfile.run p w).1.all profileVerbOk) = true :=
  ⟨rfl, IncusProfile.run_verbs p w⟩

/-- Claim C3 (amended): with mode `present`, a missing volume and a
snapshot name given, the dispatcher does not create the volume and
snapshot — it fails with "Volume ... does not exist" after only the
read-only show query. -/
theorem present_missing_with_snapshot_fails (p : VParams) (w : VWorld)
    (hst : p.state = .present) (hvol : w.showVol = .err)
    (hsn : truthy p.snapshot = true) :
    IncusStorageVolume.run p w =
      ([Cmd.run ["storage", "volume", "show", IncusStorageVolume.vpool p, p.name]],
       .failed ("Volume \x27" ++ p.name ++ "\x27 does not exist")) := by
  simp [IncusStorageVolume.run, IncusStorageVolume.get_volume_info, hst, hvol, hsn]

/-- Witness for the amended C3. -/
theorem present_missing_with_snapshot_fails_witness :
    IncusStorageVolume.run c3params vwBase =
      ([Cmd.run ["storage", "volume", "show", "pool1", "vol1"]],
       .failed ("Volume \x27" ++ "vol1" ++ "\x27 does not exist")) :=
  present_missing_with_snapshot_fails c3params vwBase rfl rfl rfl

/-- Counterexample to C3 as stated: requested mode `present`, volume
absent, snapshot name given — the run fails instead of performing a
Create; the trace contains no create command at all. -/
theorem present_missing_with_snapshot_counterexample :
    IncusStorageVolume.run c3cxparams vwBase =
      ([Cmd.run ["storage", "volume", "show", "pool1", "data-vol"]],
       .failed "Volume \x27data-vol\x27 does not exist") := by
  decide

/-- Claim C5 (amended): for every `state=restored` invocation without a
snapshot name — over all worlds, with no carve-out — the trace contains
only read commands, so no mutating Gateway call ever happens; the
outcome is the validation error whenever the preceding current-state
show query decodes or fails, and the earlier decode-exception abort
when its output is undecodable.  The original claim's "before any
Gateway call, mutating or not" is refuted by
`restored_without_snapshot_counterexample` (the read-only show query
is issued first by `run`). -/
theorem restored_without_snapshot (p : VParams) (w : VWorld)
    (hst : p.state = .restored) (hsn : truthy p.snapshot = false) :
    ((IncusStorageVolume.run p w).1.all cmdIsRead) = true ∧
    (IncusStorageVolume.run p w).2 =
      (match w.showVol with
       | .garbage => .crashed "uncaught yaml.YAMLError in get_volume_info"
       | _ => .failed "\x27snapshot\x27 is required for state=restored") := by
  cases hv : w.showVol with
  | garbage =>
    refine ⟨?_, ?_⟩
    · simp [IncusStorageVolume.run, IncusStorageVolume.get_volume_info, hst, hv]
      rfl
    · simp [IncusStorageVolume.run, IncusStorageVolume.get_volume_info, hst, hv]
  | err =>
    refine ⟨?_, ?_⟩
    · simp [IncusStorageVolume.run, IncusStorageVolume.get_volume_info,
        IncusStorageVolume.restore, hst, hsn, hv]
      rfl
    · simp [IncusStorageVolume.run, IncusStorageVolume.get_volume_info,
        IncusStorageVolume.restore, hst, hsn, hv]
  | ok d =>
    refine ⟨?_, ?_⟩
    · simp [IncusStorageVolume.run, IncusStorageVolume.get_volume_info,
        IncusStorageVolume.restore, hst, hsn, hv]
      rfl
    · simp [IncusStorageVolume.run, IncusStorageVolume.get_volume_info,
        IncusStorageVolume.restore, hst, hsn, hv]

/-- Witness for the amended C5. -/
theorem restored_without_snapshot_witness :
    ((IncusStorageVolume.run c5params vwBase).1.all cmdIsRead) = true ∧
    (IncusStorageVolume.run c5params vwBase).2 =
      .failed "\x27snapshot\x27 is required for state=restored" :=
  ⟨(restored_without_snapshot c5params vwBase rfl rfl).1,
   ((restored_without_snapshot c5params vwBase rfl rfl).2).trans (by decide)⟩

/-- Counterexample to C5 as stated: before the validation failure the
dispatcher has already issued one (read-only) Gateway call, the
current-state show query — the trace is not empty. -/
theorem restored_without_snapshot_counterexample :
    IncusStorageVolume.run c5cxparams vwBase =
      ([Cmd.run ["storage", "volume", "show", "tank", "data"]],
       .failed "\x27snapshot\x27 is required for state=restored") := by
  decide

/-- Claim C6 (the code-bug evaluation): for the profile module a show
decode failure is indeed reported as absent (`none`), but for the
volume module `get_volume_info` only catches `ImportError`, so a YAML
decode failure propagates as an uncaught exception and the run aborts
instead of treating the volume as absent. -/
theorem decode_failure_crashes :
    (IncusStorageVolume.get_volume_info vBase c6vworld).2 =
      .error "uncaught yaml.YAMLError in get_volume_info" ∧
    (IncusStorageVolume.run vBase c6vworld).2 =
      .crashed "uncaught yaml.YAMLError in get_volume_info" ∧
    (IncusProfile.get_profile pBase c6pworld).2 = none :=
  ⟨rfl, rfl, rfl⟩

/-- The update loop of `IncusStorageVolume.update`, characterised for
an arbitrary list of supplied config items (outside check mode, every
`set` succeeding): it appends exactly one `set` command and one
message per differing key — per-key stringified comparison against the
current config, missing keys read as `''` — and never fails. -/
theorem updCfg_spec (p : VParams) (w : VWorld) (cc : List (String × Value))
    (hcm : p.checkMode = false) (hok : ∀ c, w.mutOk c = true)
    (items : List (String × Value)) :
    ∀ (t : List Cmd) (ch : Bool) (ms : List String),
    IncusStorageVolume.updCfg p w cc items t ch ms =
      (t ++ (IncusStorageVolume.diffKeys cc items).map (IncusStorageVolume.setCmd p),
       ch || !(IncusStorageVolume.diffKeys cc items).isEmpty,
       ms ++ (IncusStorageVolume.diffKeys cc items).map
         (fun kv => "Updated config \x27" ++ kv.1 ++ "\x27"),
       none) := by
  induction items with
  | nil =>
    intro t ch ms
    simp [IncusStorageVolume.updCfg, IncusStorageVolume.diffKeys]
  | cons kv rest ih =>
    intro t ch ms
    obtain ⟨k, v⟩ := kv
    by_cases hd : (pyStr ((cc.lookup k).getD (.vs "")) != pyStr v) = true
    · have hdiff : IncusStorageVolume.diffKeys cc ((k, v) :: rest) =
          (k, v) :: IncusStorageVolume.diffKeys cc rest := by
        simp [IncusStorageVolume.diffKeys, List.filter, hd]
      simp only [IncusStorageVolume.updCfg, hd, hcm, hok, ih, hdiff]
      simp [IncusStorageVolume.setCmd]
    · rw [Bool.not_eq_true] at hd
      have hdiff : IncusStorageVolume.diffKeys cc ((k, v) :: rest) =
          IncusStorageVolume.diffKeys cc rest := by
        simp [IncusStorageVolume.diffKeys, List.filter, hd]
      simp only [IncusStorageVolume.updCfg, hd, ih, hdiff]
      simp

/-- Claim C4 (amended): for every volume update (mode `present`, volume
exists, no snapshot name) with an arbitrary supplied config mapping,
the differ compares only the supplied keys, each by stringified
comparison against the current config value (missing keys read as
`''`); the trace is the show query followed by exactly one per-key
`set` command for each differing key, and the outcome is Changed
exactly when some supplied key differs.  The `description` fields of
both the request and the current document are universally quantified
and never influence trace or outcome — the differ never compares
description; a changed description alone yields no-change (see
`update_ignores_description_counterexample`). -/
theorem update_compares_only_config (p : VParams) (w : VWorld) (ci : VolumeDoc)
    (items : List (String × Value))
    (hst : p.state = .present) (hvol : w.showVol = .ok ci)
    (hsn : truthy p.snapshot = false) (hcfg : p.config = some items)
    (hatt : p.attachTo = none) (hcm : p.checkMode = false)
    (hok : ∀ c, w.mutOk c = true) :
    (IncusStorageVolume.run p w).1 =
      Cmd.run ["storage", "volume", "show", IncusStorageVolume.vpool p, p.name]
        :: (IncusStorageVolume.diffKeys (ci.config.getD []) items).map
             (IncusStorageVolume.setCmd p) ∧
    (IncusStorageVolume.run p w).2 =
      (if (IncusStorageVolume.diffKeys (ci.config.getD []) items).isEmpty then
        .exited false "Storage volume matches configuration"
      else
        .exited true (String.intercalate ", "
          ((IncusStorageVolume.diffKeys (ci.config.getD []) items).map
            (fun kv => "Updated config \x27" ++ kv.1 ++ "\x27")))) := by
  have hrun : IncusStorageVolume.run p w =
      ((IncusStorageVolume.get_volume_info p w).1 ++ (IncusStorageVolume.update p w ci).1,
       (IncusStorageVolume.update p w ci).2) := by
    simp [IncusStorageVolume.run, IncusStorageVolume.get_volume_info, hst, hvol, hsn]
  have hupd : IncusStorageVolume.update p w ci =
      IncusStorageVolume.updFinish
        ((IncusStorageVolume.diffKeys (ci.config.getD []) items).map
          (IncusStorageVolume.setCmd p))
        (!(IncusStorageVolume.diffKeys (ci.config.getD []) items).isEmpty)
        ((IncusStorageVolume.diffKeys (ci.config.getD []) items).map
          (fun kv => "Updated config \x27" ++ kv.1 ++ "\x27")) := by
    simp only [IncusStorageVolume.update, hcfg,
      updCfg_spec p w (ci.config.getD []) hcm hok items, hatt]
    simp [truthy]
  rw [hrun, hupd]
  cases hD : (IncusStorageVolume.diffKeys (ci.config.getD []) items).isEmpty
  · constructor
    · simp [IncusStorageVolume.updFinish, IncusStorageVolume.get_volume_info]
    · simp [IncusStorageVolume.updFinish]
  · have hnil : IncusStorageVolume.diffKeys (ci.config.getD []) items = [] :=
      List.isEmpty_iff.mp hD
    constructor
    · simp [IncusStorageVolume.updFinish, IncusStorageVolume.get_volume_info, hnil]
    · simp [IncusStorageVolume.updFinish, hnil]

/-- Witness for the amended C4: with supplied config
`{size: 10GiB, snapshots.schedule: @daily}` against current config
`{size: 10GiB}`, the matching `size` key is skipped and the differing
`snapshots.schedule` key (missing from the current config) triggers
exactly one `set` command and a Changed outcome — while the request
and current descriptions differ and are ignored. -/
theorem update_compares_only_config_witness :
    (IncusStorageVolume.run c4params c4world).1 =
      [Cmd.run ["storage", "volume", "show", "pool1", "vol1"],
       Cmd.run ["storage", "volume", "set", "pool1", "vol1",
                "snapshots.schedule=@daily"]] ∧
    (IncusStorageVolume.run c4params c4world).2 =
      .exited true "Updated config \x27snapshots.schedule\x27" :=
  ⟨((update_compares_only_config c4params c4world c4current c4items
      rfl rfl rfl rfl rfl rfl (fun _ => rfl)).1).trans (by decide),
   ((update_compares_only_config c4params c4world c4current c4items
      rfl rfl rfl rfl rfl rfl (fun _ => rfl)).2).trans (by decide)⟩

/-- Counterexample to C4 as stated: the current description differs
from the requested description, yet the run reports no-change and
issues no mutating command — the differ never compares `description`,
so a changed description alone does not yield a Changed outcome. -/
theorem update_ignores_description_counterexample :
    IncusStorageVolume.run c4cxparams c4world =
      ([Cmd.run ["storage", "volume", "show", "pool1", "vol1"]],
       .exited false "Storage volume matches configuration") := by
  decide

/-- Claim C8: snapshot creation (mode `present`, volume exists,
snapshot name given) is idempotent: when a snapshot of that name
already exists the run reports no-change and issues only reads; when
it does not, and the create command succeeds, the run reports Changed
and the mutating part of the trace is exactly the one snapshot-create
command. -/
theorem snapshot_create_idempotent (p : VParams) (w : VWorld) (ci : VolumeDoc)
    (hst : p.state = .present) (hvol : w.showVol = .ok ci)
    (hsn : truthy p.snapshot = true) (hcm : p.checkMode = false) :
    (w.showSnap = true →
      (IncusStorageVolume.run p w).2 = .exited false "Snapshot already exists" ∧
      ((IncusStorageVolume.run p w).1.all cmdIsRead) = true) ∧
    (w.showSnap = false → w.mutOk (IncusStorageVolume.snapCreateCmd p) = true →
      (IncusStorageVolume.run p w).2 = .exited true "Snapshot created" ∧
      (IncusStorageVolume.run p w).1.filter (fun c => !(cmdIsRead c)) =
        [IncusStorageVolume.snapCreateCmd p]) := by
  have hrun : IncusStorageVolume.run p w =
      ((IncusStorageVolume.get_volume_info p w).1 ++ (IncusStorageVolume.create p w).1,
       (IncusStorageVolume.create p w).2) := by
    simp [IncusStorageVolume.run, IncusStorageVolume.get_volume_info, hst, hvol, hsn]
  constructor
  · intro hsnap
    rw [hrun]
    constructor
    · simp [IncusStorageVolume.create, IncusStorageVolume.snapshot_exists, hsn, hsnap]
    · simp [IncusStorageVolume.create, IncusStorageVolume.snapshot_exists,
        IncusStorageVolume.get_volume_info, hsn, hsnap]
      exact ⟨rfl, rfl⟩
  · intro hsnap hok
    rw [hrun]
    constructor
    · simp [IncusStorageVolume.create, IncusStorageVolume.snapshot_exists, hsn,
        hsnap, hcm, hok]
    · simp only [IncusStorageVolume.create, IncusStorageVolume.snapshot_exists,
        IncusStorageVolume.get_volume_info, hsn, hsnap, hcm, hok]
      simp only [List.filter_append]
      rfl

/-- Witness for C8: with the snapshot already present the run is a
read-only no-change; with it absent the run issues exactly the one
snapshot-create command and reports Changed. -/
theorem snapshot_create_idempotent_witness :
    (IncusStorageVolume.run c8params c8worldA).2 =
      .exited false "Snapshot already exists" ∧
    (IncusStorageVolume.run c8params c8worldB).2 =
      .exited true "Snapshot created" ∧
    (IncusStorageVolume.run c8params c8worldB).1.filter (fun c => !(cmdIsRead c)) =
      [IncusStorageVolume.snapCreateCmd c8params] :=
  ⟨((snapshot_create_idempotent c8params c8worldA c8current rfl rfl rfl rfl).1 rfl).1,
   ((snapshot_create_idempotent c8params c8worldB c8current rfl rfl rfl rfl).2 rfl rfl).1,
   ((snapshot_create_idempotent c8params c8worldB c8current rfl rfl rfl rfl).2 rfl rfl).2⟩

/-- Claim C9: in the attach command built by the dispatcher, the
device-name argument is omitted exactly when the resolved attach
device equals the volume name and no mount path will be appended, and
the mount path is appended exactly when an attach path is given
(truthy), the volume type is `filesystem` and the content type is not
`iso`; `attach_volume` outside check mode issues exactly this command. -/
theorem attach_command_grammar (p : VParams) (w : VWorld) :
    IncusStorageVolume.attachCmdArgs p =
      ["storage", "volume", "attach", IncusStorageVolume.vpool p, p.name,
       p.attachTo.getD ""]
      ++ (if IncusStorageVolume.attachDev p == p.name &&
              !(IncusStorageVolume.hasPath p) then []
          else [IncusStorageVolume.attachDev p])
      ++ (if truthy p.attachPath && p.type == .filesystem &&
              !(p.contentType == some "iso") then [p.attachPath.getD ""]
          else []) ∧
    (IncusStorageVolume.attach_volume { p with checkMode := false } w).1 =
      [Cmd.run (IncusStorageVolume.attachCmdArgs p)] := by
  constructor
  · cases hu : (IncusStorageVolume.attachDev p == p.name) <;>
      cases hp : IncusStorageVolume.hasPath p <;>
        simp_all [IncusStorageVolume.attachCmdArgs, IncusStorageVolume.hasPath]
  · simp only [IncusStorageVolume.attach_volume]
    split
    · next h => exact absurd h (by decide)
    · split <;> rfl

end Incus
